import Mathlib

/-
Model of the Games API service (src/main.py): a FastAPI application over a
single SQLite table of games, with six endpoints (list, get, create, full
update, partial update, delete).  The store is modelled as a list of rows in
insertion order; each handler becomes a function from the store and the
request data to a response together with the store left behind by the
request.  Machine details that matter to the observable behaviour are kept:
pydantic validation of each schema variant, the set/unset distinction of
pydantic fields, the NOT NULL columns of the table, and serialization of the
return value through the public response model.
-/

-- Data model

/-- A row of the game table.  The declared columns are release_date, studio
and ratings with NOT NULL (their annotated types are not Optional) and
platforms as a plain JSON column, which is nullable.  A live ORM object can
hold None in any non-key field, so every non-key field is an Option; the
NOT NULL constraints are enforced at commit time, not here. -/
structure GameRow where
  name : String
  release_date : Option Int
  studio : Option String
  ratings : Option Int
  platforms : Option (List String)
deriving DecidableEq

/-- The public response shape GamePublic: name plus the four non-key fields,
all required.  A row with a None field does not serialize into it. -/
structure GamePublic where
  name : String
  release_date : Int
  studio : String
  ratings : Int
  platforms : List String
deriving DecidableEq

/-- The creation payload GameCreate: name (a plain str, no length bound at
this layer) plus the four required fields; studio carries min_length 1 from
GameBase, so request validation already rejects an empty studio. -/
structure GameCreate where
  name : String
  release_date : Int
  studio : String
  ratings : Int
  platforms : List String
deriving DecidableEq

/-- The update payload GameUpdate: every field optional and defaulted to
None, with no length bound on studio (the override drops min_length).  The
outer Option records whether the field was supplied at all (pydantic
exclude_unset), the inner Option records a JSON null.  model_dump without
exclude_unset collapses the two layers, which is Option.join here. -/
structure GameUpdate where
  release_date : Option (Option Int)
  studio : Option (Option String)
  ratings : Option (Option Int)
  platforms : Option (Option (List String))
deriving DecidableEq

/-- The database: the rows of the game table in rowid (insertion) order. -/
abbrev Store := List GameRow

/-- Outcome of one request: the body on success (200 list, 200 single, 201
created, or the raw row returned by the delete handler, which has no
response model), a 404 with its detail message, a 422 from request
validation, or a 500 from an unhandled exception (IntegrityError, a pydantic
ValidationError inside the handler, or response serialization failure). -/
inductive Response where
  | okList (games : List GamePublic)
  | ok (game : GamePublic)
  | created (game : GamePublic)
  | okDeleted (game : GameRow)
  | notFound (detail : String)
  | validationError
  | serverError
deriving DecidableEq

/-- A handler outcome: the HTTP response and the store as the request leaves
it (SQLite rolls an uncommitted transaction back, so a failed request leaves
the store unchanged). -/
structure Result where
  response : Response
  store : Store
deriving DecidableEq

-- Store primitives

/-- Primary key lookup, session.get(Game, name): the row whose name equals
the key, if any. -/
def lookup : Store → String → Option GameRow
  | [], _ => none
  | r :: rs, n => if r.name = n then some r else lookup rs n

/-- Write back a row under its primary key: the first row named n is
replaced, the rest of the table is untouched. -/
def setRow : Store → String → GameRow → Store
  | [], _, _ => []
  | r :: rs, n, new => if r.name = n then new :: rs else r :: setRow rs n new

/-- DELETE of the row keyed by n: the first row named n is removed. -/
def eraseRow : Store → String → Store
  | [], _ => []
  | r :: rs, n => if r.name = n then rs else r :: eraseRow rs n

/-- Serialization of a row through the public response model: defined only
when every field is present (non-null) and studio is non-empty, since
GamePublic inherits min_length 1 on studio from GameBase and FastAPI
validates the return value against the response model. -/
def GameRow.toPublic (r : GameRow) : Option GamePublic :=
  match r.release_date, r.studio, r.ratings, r.platforms with
  | some d, some st, some rt, some pl =>
    if st = "" then none else some ⟨r.name, d, st, rt, pl⟩
  | _, _, _, _ => none

/-- Serialization of a list of rows through the public response model; one
unserializable row fails the whole response. -/
def serializeAll : Store → Option (List GamePublic)
  | [] => some []
  | r :: rs =>
    match r.toPublic, serializeAll rs with
    | some p, some ps => some (p :: ps)
    | _, _ => none

/-- Response of a handler that returns a row through response_model
GamePublic: 200 with the serialized row, or a 500 when a field is null. -/
def respOf (r : GameRow) : Response :=
  match r.toPublic with
  | some p => Response.ok p
  | none => Response.serverError

/-- Response of the create handler, which declares status code 201. -/
def createdResp (r : GameRow) : Response :=
  match r.toPublic with
  | some p => Response.created p
  | none => Response.serverError

/-- The fully populated row built from a creation payload. -/
def GameCreate.toRow (g : GameCreate) : GameRow :=
  ⟨g.name, some g.release_date, some g.studio, some g.ratings, some g.platforms⟩

/-- Whether committing an UPDATE from row old to row new succeeds: SQLite
checks NOT NULL on release_date, studio and ratings, but only columns whose
value changed take part in the UPDATE statement (SQLAlchemy flushes net
changes only), and the platforms JSON column is nullable. -/
def commitOk (old new : GameRow) : Prop :=
  (new.release_date = old.release_date ∨ new.release_date.isSome = true) ∧
  (new.studio = old.studio ∨ new.studio.isSome = true) ∧
  (new.ratings = old.ratings ∨ new.ratings.isSome = true)

instance commitOkDec (old new : GameRow) : Decidable (commitOk old new) := by
  unfold commitOk
  exact inferInstance

/-- The row obtained by applying a partial update body to a row:
model_dump with exclude_unset keeps exactly the supplied fields, and
sqlmodel_update overwrites those attributes, inner nulls included.  The body
has no name field, so the key is untouched. -/
def applyPatch (r : GameRow) (b : GameUpdate) : GameRow :=
  ⟨r.name, b.release_date.getD r.release_date, b.studio.getD r.studio,
    b.ratings.getD r.ratings, b.platforms.getD r.platforms⟩

-- Endpoint handlers

/-- GET /games, read_games: Query(le=100) rejects limit above 100 with a
422; there is no lower bound, and SQLite treats a negative LIMIT as
unbounded and a negative OFFSET as zero.  The selected window is serialized
through the public response model. -/
def read_games (s : Store) (off limit : Int) : Response :=
  if 100 < limit then Response.validationError
  else
    match serializeAll
        (if limit < 0 then s.drop off.toNat else (s.drop off.toNat).take limit.toNat) with
    | some ps => Response.okList ps
    | none => Response.serverError

/-- GET /games/{name}, read_game: 404 when the key is absent, otherwise the
row serialized through the public response model.  The handler performs no
write, so the store is unchanged by construction. -/
def read_game (s : Store) (n : String) : Response :=
  match lookup s n with
  | none => Response.notFound "Game not found"
  | some r => respOf r

/-- POST /games/, create_game: request validation rejects an empty studio
(min_length 1 on GameBase) with a 422; Game.model_validate then enforces
min_length 1 on name, whose failure is an unhandled ValidationError (500);
committing the INSERT with an already present key raises IntegrityError
(500) and the transaction is rolled back; otherwise the row is appended and
returned with status 201. -/
def create_game (s : Store) (g : GameCreate) : Result :=
  if g.studio = "" then ⟨Response.validationError, s⟩
  else if g.name = "" then ⟨Response.serverError, s⟩
  else if (lookup s g.name).isSome then ⟨Response.serverError, s⟩
  else ⟨createdResp g.toRow, s ++ [g.toRow]⟩

/-- PUT /games/{name}, update_game: 404 when the key is absent; the body is
poured through GameCreate, so a missing or null field, or an empty studio,
raises an unhandled ValidationError (500), and Game.model_validate then
rejects an empty path name (500); otherwise every non-key column of the row
is replaced by the supplied value and name is rewritten to the path name,
which is the key just looked up. -/
def update_game (s : Store) (n : String) (b : GameUpdate) : Result :=
  match lookup s n with
  | none => ⟨Response.notFound "Game not found", s⟩
  | some _ =>
    match b.release_date.join, b.studio.join, b.ratings.join, b.platforms.join with
    | some d, some st, some rt, some pl =>
      if st = "" then ⟨Response.serverError, s⟩
      else if n = "" then ⟨Response.serverError, s⟩
      else ⟨respOf ⟨n, some d, some st, some rt, some pl⟩,
        setRow s n ⟨n, some d, some st, some rt, some pl⟩⟩
    | _, _, _, _ => ⟨Response.serverError, s⟩

/-- PATCH /games/{name}, the partial update handler: 404 when the key is
absent; the supplied fields overwrite the row (applyPatch); the commit
succeeds unless a changed NOT NULL column became null (commitOk), in which
case the IntegrityError surfaces as a 500 and the store is unchanged; on
success the response serializes the new row, which can itself fail with a
500 after the commit when platforms became null. -/
def patch_game (s : Store) (n : String) (b : GameUpdate) : Result :=
  match lookup s n with
  | none => ⟨Response.notFound "Game not found", s⟩
  | some r =>
    if commitOk r (applyPatch r b) then
      ⟨respOf (applyPatch r b), setRow s n (applyPatch r b)⟩
    else ⟨Response.serverError, s⟩

/-- DELETE /games/{name}, delete_game: 404 when the key is absent; otherwise
the row is deleted and returned as-is (the delete route declares no response
model, so serialization cannot fail). -/
def delete_game (s : Store) (n : String) : Result :=
  match lookup s n with
  | none => ⟨Response.notFound "Game not found", s⟩
  | some r => ⟨Response.okDeleted r, eraseRow s n⟩

-- Operation sequences

/-- One mutating request against the service. -/
inductive Op where
  | create (g : GameCreate)
  | put (n : String) (b : GameUpdate)
  | patch (n : String) (b : GameUpdate)
  | delete (n : String)

/-- The store left behind by one request. -/
def applyOp (s : Store) : Op → Store
  | Op.create g => (create_game s g).store
  | Op.put n b => (update_game s n b).store
  | Op.patch n b => (patch_game s n b).store
  | Op.delete n => (delete_game s n).store

/-- The store after a sequence of requests starting from the empty table
(the schema is created fresh at startup). -/
def runOps (ops : List Op) : Store :=
  ops.foldl applyOp []

/-- The shape every committed row actually keeps: a non-empty name and
non-null release_date, studio and ratings (the NOT NULL columns).  Neither
a non-empty studio nor a non-null platforms is guaranteed. -/
def rowWF (r : GameRow) : Prop :=
  r.name ≠ "" ∧ r.release_date.isSome = true ∧ r.studio.isSome = true ∧
    r.ratings.isSome = true

/-- All rows of a store are well formed. -/
def storeWF (s : Store) : Prop :=
  ∀ r, r ∈ s → rowWF r

-- Sample data

/-- Sample creation payload from the specification example. -/
def g0 : GameCreate := ⟨"Chrono Trigger", 9200, "Square", 10, ["SNES"]⟩

/-- The stored row for the sample payload. -/
def row0 : GameRow :=
  ⟨"Chrono Trigger", some 9200, some "Square", some 10, some ["SNES"]⟩

/-- The public view of the sample row. -/
def pub0 : GamePublic := ⟨"Chrono Trigger", 9200, "Square", 10, ["SNES"]⟩

/-- The sample row after a partial update set platforms to null. -/
def row1 : GameRow :=
  ⟨"Chrono Trigger", some 9200, some "Square", some 10, none⟩

/-- The sample row after a partial update set studio to the empty string and
platforms to null. -/
def row2 : GameRow :=
  ⟨"Chrono Trigger", some 9200, some "", some 10, none⟩

-- Lemmas about the store primitives

/-- A successful primary key lookup returns a row bearing that key. -/
theorem lookup_name {s : Store} {n : String} {r : GameRow}
    (h : lookup s n = some r) : r.name = n := by
  induction s with
  | nil => simp [lookup] at h
  | cons a as ih =>
    by_cases ha : a.name = n
    · simp [lookup, ha] at h
      rw [← h]
      exact ha
    · simp [lookup, ha] at h
      exact ih h

/-- A successful primary key lookup returns a row of the table. -/
theorem lookup_mem {s : Store} {n : String} {r : GameRow}
    (h : lookup s n = some r) : r ∈ s := by
  induction s with
  | nil => simp [lookup] at h
  | cons a as ih =>
    by_cases ha : a.name = n
    · simp [lookup, ha] at h
      simp [h]
    · simp [lookup, ha] at h
      exact List.mem_cons_of_mem a (ih h)

/-- Looking a key up in an extended table starts over in the extension when
the key is absent from the original part. -/
theorem lookup_append {s l : Store} {n : String}
    (h : lookup s n = none) : lookup (s ++ l) n = lookup l n := by
  induction s with
  | nil => rfl
  | cons a as ih =>
    by_cases ha : a.name = n
    · simp [lookup, ha] at h
    · simp [lookup, ha] at h ⊢
      exact ih h

/-- A key absent from the name column is not found. -/
theorem lookup_eq_none {s : Store} {n : String}
    (h : n ∉ s.map GameRow.name) : lookup s n = none := by
  induction s with
  | nil => rfl
  | cons a as ih =>
    simp at h
    have ha : ¬a.name = n := fun e => h.1 e.symm
    simp [lookup, ha]
    exact ih (by simpa using h.2)

/-- Writing a row back under a present key makes it the row found there. -/
theorem lookup_setRow {s : Store} {n : String} {r new : GameRow}
    (h : lookup s n = some r) (hname : new.name = n) :
    lookup (setRow s n new) n = some new := by
  induction s with
  | nil => simp [lookup] at h
  | cons a as ih =>
    by_cases ha : a.name = n
    · simp [setRow, ha, lookup, hname]
    · simp [lookup, ha] at h
      simp [setRow, ha, lookup, ih h]

/-- Writing the found row back unchanged leaves the table unchanged. -/
theorem setRow_self {s : Store} {n : String} {r : GameRow}
    (h : lookup s n = some r) : setRow s n r = s := by
  induction s with
  | nil => rfl
  | cons a as ih =>
    by_cases ha : a.name = n
    · simp [lookup, ha] at h
      subst h
      simp [setRow, ha]
    · simp [lookup, ha] at h
      simp [setRow, ha, ih h]

/-- Writing a row back under its own key preserves the name column. -/
theorem setRow_map_name {s : Store} {n : String} {new : GameRow}
    (h : new.name = n) :
    (setRow s n new).map GameRow.name = s.map GameRow.name := by
  induction s with
  | nil => rfl
  | cons a as ih =>
    by_cases ha : a.name = n
    · simp [setRow, ha, h]
    · simp [setRow, ha, ih]

/-- Every row of a table after a write-back is the written row or an
original row. -/
theorem mem_setRow {s : Store} {n : String} {new r : GameRow}
    (h : r ∈ setRow s n new) : r = new ∨ r ∈ s := by
  induction s with
  | nil => simp [setRow] at h
  | cons a as ih =>
    by_cases ha : a.name = n
    · simp [setRow, ha] at h
      rcases h with h | h
      · exact Or.inl h
      · exact Or.inr (List.mem_cons_of_mem a h)
    · simp [setRow, ha] at h
      rcases h with h | h
      · exact Or.inr (by simp [h])
      · rcases ih h with h | h
        · exact Or.inl h
        · exact Or.inr (List.mem_cons_of_mem a h)

/-- Every row surviving a delete was a row of the table. -/
theorem mem_eraseRow {s : Store} {n : String} {r : GameRow}
    (h : r ∈ eraseRow s n) : r ∈ s := by
  induction s with
  | nil => simp [eraseRow] at h
  | cons a as ih =>
    by_cases ha : a.name = n
    · simp [eraseRow, ha] at h
      exact List.mem_cons_of_mem a h
    · simp [eraseRow, ha] at h
      rcases h with h | h
      · simp [h]
      · exact List.mem_cons_of_mem a (ih h)

/-- With no duplicate keys in the table, a deleted key is no longer
found. -/
theorem lookup_eraseRow {s : Store} {n : String}
    (hnodup : (s.map GameRow.name).Nodup) : lookup (eraseRow s n) n = none := by
  induction s with
  | nil => rfl
  | cons a as ih =>
    simp at hnodup
    by_cases ha : a.name = n
    · simp [eraseRow, ha]
      refine lookup_eq_none ?_
      rw [← ha]
      simpa using hnodup.1
    · simp [eraseRow, ha, lookup]
      exact ih hnodup.2

/-- A serialized window has the length of the window. -/
theorem serializeAll_length {rs : Store} {ps : List GamePublic}
    (h : serializeAll rs = some ps) : ps.length = rs.length := by
  induction rs generalizing ps with
  | nil =>
    simp [serializeAll] at h
    simp [← h]
  | cons a as ih =>
    simp only [serializeAll] at h
    cases hp : a.toPublic with
    | none => simp [hp] at h
    | some p =>
      cases hs : serializeAll as with
      | none => simp [hp, hs] at h
      | some qs =>
        simp [hp, hs] at h
        simp [← h, ih hs]

-- Invariant preservation

/-- A row rewritten by a committed partial update stays well formed: the
name is untouched and a NOT NULL column either kept its value or received a
non-null one. -/
theorem rowWF_applyPatch {r : GameRow} {b : GameUpdate}
    (hr : rowWF r) (hc : commitOk r (applyPatch r b)) :
    rowWF (applyPatch r b) := by
  obtain ⟨hn, hd, hst, hrt⟩ := hr
  obtain ⟨cd, cst, crt⟩ := hc
  refine ⟨hn, ?_, ?_, ?_⟩
  · rcases cd with e | e
    · rw [e]; exact hd
    · exact e
  · rcases cst with e | e
    · rw [e]; exact hst
    · exact e
  · rcases crt with e | e
    · rw [e]; exact hrt
    · exact e

/-- The create handler preserves well-formedness of the store. -/
theorem storeWF_create {s : Store} {g : GameCreate} (hwf : storeWF s) :
    storeWF (create_game s g).store := by
  unfold create_game
  by_cases h1 : g.studio = ""
  · simp only [h1, if_true]; exact hwf
  · by_cases h2 : g.name = ""
    · simp [h1, h2]; exact hwf
    · by_cases h3 : (lookup s g.name).isSome
      · simp [h1, h2, h3]; exact hwf
      · simp [h1, h2, h3]
        intro r hr
        rcases List.mem_append.mp hr with h | h
        · exact hwf r h
        · simp at h
          subst h
          exact ⟨h2, rfl, rfl, rfl⟩

/-- The full update handler preserves well-formedness of the store. -/
theorem storeWF_put {s : Store} {n : String} {b : GameUpdate}
    (hwf : storeWF s) : storeWF (update_game s n b).store := by
  unfold update_game
  cases hl : lookup s n with
  | none => exact hwf
  | some r =>
    cases b.release_date.join with
    | none =>
      cases b.studio.join <;> cases b.ratings.join <;> cases b.platforms.join <;> exact hwf
    | some d =>
      cases b.studio.join with
      | none => cases b.ratings.join <;> cases b.platforms.join <;> exact hwf
      | some st =>
        cases b.ratings.join with
        | none => cases b.platforms.join <;> exact hwf
        | some rt =>
          cases b.platforms.join with
          | none => exact hwf
          | some pl =>
            by_cases hst : st = ""
            · simp [hst]; exact hwf
            · by_cases hn : n = ""
              · simp [hst, hn]; exact hwf
              · simp [hst, hn]
                intro r' hr'
                rcases mem_setRow hr' with h | h
                · subst h
                  exact ⟨hn, rfl, rfl, rfl⟩
                · exact hwf r' h

/-- The partial update handler preserves well-formedness of the store. -/
theorem storeWF_patch {s : Store} {n : String} {b : GameUpdate}
    (hwf : storeWF s) : storeWF (patch_game s n b).store := by
  unfold patch_game
  cases hl : lookup s n with
  | none => exact hwf
  | some r =>
    by_cases hc : commitOk r (applyPatch r b)
    · simp only [hc, if_true]
      intro r' hr'
      rcases mem_setRow hr' with h | h
      · subst h
        exact rowWF_applyPatch (hwf r (lookup_mem hl)) hc
      · exact hwf r' h
    · simp [hc]; exact hwf

/-- The delete handler preserves well-formedness of the store. -/
theorem storeWF_delete {s : Store} {n : String} (hwf : storeWF s) :
    storeWF (delete_game s n).store := by
  unfold delete_game
  cases hl : lookup s n with
  | none => exact hwf
  | some r =>
    intro r' hr'
    exact hwf r' (mem_eraseRow hr')

/-- Every request preserves well-formedness of the store. -/
theorem storeWF_applyOp {s : Store} (o : Op) (hwf : storeWF s) :
    storeWF (applyOp s o) := by
  cases o with
  | create g => exact storeWF_create hwf
  | put n b => exact storeWF_put hwf
  | patch n b => exact storeWF_patch hwf
  | delete n => exact storeWF_delete hwf

/-- A sequence of requests preserves well-formedness of the store. -/
theorem storeWF_foldl (ops : List Op) :
    ∀ s : Store, storeWF s → storeWF (ops.foldl applyOp s) := by
  induction ops with
  | nil => intro s h; simpa using h
  | cons o os ih => intro s h; exact ih _ (storeWF_applyOp o h)

-- Claim C1

/-- Claim C1: a create request whose name is already stored never succeeds
with a 201 and never overwrites the stored row: it ends in a 422 from
request validation or in the unhandled IntegrityError raised by the
duplicate primary key at commit (a 500), and the store, in particular the
row under that name, is left exactly as it was. -/
theorem create_duplicate_rejected (s : Store) (n : String) (r : GameRow)
    (g : GameCreate) (hrow : lookup s n = some r) (hname : g.name = n) :
    ((create_game s g).response = Response.validationError ∨
      (create_game s g).response = Response.serverError) ∧
    (create_game s g).store = s := by
  unfold create_game
  by_cases h1 : g.studio = ""
  · simp [h1]
  · by_cases h2 : g.name = ""
    · simp [h1, h2]
    · have h3 : (lookup s g.name).isSome = true := by rw [hname, hrow]; rfl
      simp [h1, h2, h3]

/-- Witness for C1 at the sample store and payload. -/
theorem create_duplicate_rejected_witness :
    lookup [row0] "Chrono Trigger" = some row0 ∧ g0.name = "Chrono Trigger" ∧
    (((create_game [row0] g0).response = Response.validationError ∨
        (create_game [row0] g0).response = Response.serverError) ∧
      (create_game [row0] g0).store = [row0]) :=
  ⟨by decide, by decide,
    create_duplicate_rejected [row0] "Chrono Trigger" row0 g0 (by decide) (by decide)⟩

-- Claim C2

/-- Claim C2: for a valid creation payload (a non-empty name and studio, as
the data model requires) whose name is not yet stored, create answers 201
with exactly the payload fields and a following get on that name answers
200 with the same fields. -/
theorem create_then_get_roundtrip (s : Store) (g : GameCreate)
    (hname : g.name ≠ "") (hstudio : g.studio ≠ "")
    (hfresh : lookup s g.name = none) :
    (create_game s g).response =
      Response.created ⟨g.name, g.release_date, g.studio, g.ratings, g.platforms⟩ ∧
    read_game (create_game s g).store g.name =
      Response.ok ⟨g.name, g.release_date, g.studio, g.ratings, g.platforms⟩ := by
  have hsome : (lookup s g.name).isSome = false := by rw [hfresh]; rfl
  constructor
  · simp [create_game, hstudio, hname, hsome, createdResp, GameCreate.toRow,
      GameRow.toPublic]
  · simp [create_game, hstudio, hname, hsome, read_game, lookup_append hfresh,
      lookup, GameCreate.toRow, respOf, GameRow.toPublic]

/-- Witness for C2 at the empty store and the sample payload. -/
theorem create_then_get_roundtrip_witness :
    g0.name ≠ "" ∧ g0.studio ≠ "" ∧ lookup [] g0.name = none ∧
    ((create_game [] g0).response =
        Response.created ⟨g0.name, g0.release_date, g0.studio, g0.ratings, g0.platforms⟩ ∧
      read_game (create_game [] g0).store g0.name =
        Response.ok ⟨g0.name, g0.release_date, g0.studio, g0.ratings, g0.platforms⟩) :=
  ⟨by decide, by decide, rfl,
    create_then_get_roundtrip [] g0 (by decide) (by decide) rfl⟩

-- Claim C3

/-- Claim C3: a partial update whose body supplies only ratings rewrites
only the ratings field of the stored row: afterwards the row under that
name keeps its prior name, release_date, studio and platforms, with the
supplied ratings value. -/
theorem patch_ratings_frame (s : Store) (n : String) (r : GameRow) (v : Int)
    (hrow : lookup s n = some r) :
    lookup (patch_game s n ⟨none, none, some (some v), none⟩).store n =
      some ⟨r.name, r.release_date, r.studio, some v, r.platforms⟩ := by
  have hname : r.name = n := lookup_name hrow
  have hc : commitOk r (applyPatch r ⟨none, none, some (some v), none⟩) :=
    ⟨Or.inl rfl, Or.inl rfl, Or.inr rfl⟩
  unfold patch_game
  simp only [hrow]
  rw [if_pos hc]
  exact lookup_setRow hrow hname

/-- Witness for C3 at the sample store. -/
theorem patch_ratings_frame_witness :
    lookup [row0] "Chrono Trigger" = some row0 ∧
    lookup
        (patch_game [row0] "Chrono Trigger" ⟨none, none, some (some 3), none⟩).store
        "Chrono Trigger" =
      some ⟨row0.name, row0.release_date, row0.studio, some 3, row0.platforms⟩ :=
  ⟨by decide, patch_ratings_frame [row0] "Chrono Trigger" row0 3 (by decide)⟩

-- Claim C4

/-- Claim C4: full update requires the body to supply every non-key field.
With the row present, a body leaving any field unset or null makes the
handler fail with an unhandled ValidationError (500) and leaves the store
untouched, so no outcome replaces the row while silently keeping an
omitted field; a body supplying every field, with a studio that passes the
data model (non-empty), replaces all non-key fields of the stored row with
exactly the supplied values. -/
theorem update_requires_all_fields (s : Store) (n : String) (r : GameRow)
    (b : GameUpdate) (hrow : lookup s n = some r) (hn : n ≠ "") :
    ((b.release_date.join = none ∨ b.studio.join = none ∨
        b.ratings.join = none ∨ b.platforms.join = none) →
      (update_game s n b).response = Response.serverError ∧
        (update_game s n b).store = s) ∧
    ((b.release_date.join).isSome = true → (b.studio.join).isSome = true →
      (b.ratings.join).isSome = true → (b.platforms.join).isSome = true →
      b.studio.join ≠ some "" →
      (update_game s n b).response =
        Response.ok ⟨n, (b.release_date.join).getD 0, (b.studio.join).getD "",
          (b.ratings.join).getD 0, (b.platforms.join).getD []⟩ ∧
      lookup (update_game s n b).store n =
        some ⟨n, b.release_date.join, b.studio.join, b.ratings.join,
          b.platforms.join⟩) := by
  constructor
  · intro hmiss
    unfold update_game
    simp only [hrow]
    cases hd : b.release_date.join with
    | none =>
      cases b.studio.join <;> cases b.ratings.join <;> cases b.platforms.join <;>
        exact ⟨rfl, rfl⟩
    | some d =>
      cases hst : b.studio.join with
      | none =>
        cases b.ratings.join <;> cases b.platforms.join <;> exact ⟨rfl, rfl⟩
      | some st =>
        cases hrt : b.ratings.join with
        | none => cases b.platforms.join <;> exact ⟨rfl, rfl⟩
        | some rt =>
          cases hpl : b.platforms.join with
          | none => exact ⟨rfl, rfl⟩
          | some pl =>
            rcases hmiss with h | h | h | h
            · rw [hd] at h; exact absurd h (by simp)
            · rw [hst] at h; exact absurd h (by simp)
            · rw [hrt] at h; exact absurd h (by simp)
            · rw [hpl] at h; exact absurd h (by simp)
  · intro h1 h2 h3 h4 hne
    obtain ⟨d, hd⟩ := Option.isSome_iff_exists.mp h1
    obtain ⟨st, hst⟩ := Option.isSome_iff_exists.mp h2
    obtain ⟨rt, hrt⟩ := Option.isSome_iff_exists.mp h3
    obtain ⟨pl, hpl⟩ := Option.isSome_iff_exists.mp h4
    have hstne : st ≠ "" := by
      intro e
      rw [hst, e] at hne
      exact hne rfl
    have heq : update_game s n b =
        ⟨respOf ⟨n, some d, some st, some rt, some pl⟩,
          setRow s n ⟨n, some d, some st, some rt, some pl⟩⟩ := by
      unfold update_game
      rw [hrow]
      simp only [hd, hst, hrt, hpl]
      rw [if_neg hstne, if_neg hn]
    rw [heq, hd, hst, hrt, hpl]
    refine ⟨?_, ?_⟩
    · simp [respOf, GameRow.toPublic, hstne]
    · exact lookup_setRow hrow rfl

/-- A full update body supplying every field, for the C4 witness. -/
def bFull : GameUpdate :=
  ⟨some (some 9300), some (some "Square Enix"), some (some 9),
    some (some ["SNES", "PS1"])⟩

/-- Witness for C4 at the sample store and a fully supplied body. -/
theorem update_requires_all_fields_witness :
    lookup [row0] "Chrono Trigger" = some row0 ∧ ("Chrono Trigger" : String) ≠ "" ∧
    (((bFull.release_date.join = none ∨ bFull.studio.join = none ∨
        bFull.ratings.join = none ∨ bFull.platforms.join = none) →
      (update_game [row0] "Chrono Trigger" bFull).response = Response.serverError ∧
        (update_game [row0] "Chrono Trigger" bFull).store = [row0]) ∧
    ((bFull.release_date.join).isSome = true → (bFull.studio.join).isSome = true →
      (bFull.ratings.join).isSome = true → (bFull.platforms.join).isSome = true →
      bFull.studio.join ≠ some "" →
      (update_game [row0] "Chrono Trigger" bFull).response =
        Response.ok ⟨"Chrono Trigger", (bFull.release_date.join).getD 0,
          (bFull.studio.join).getD "", (bFull.ratings.join).getD 0,
          (bFull.platforms.join).getD []⟩ ∧
      lookup (update_game [row0] "Chrono Trigger" bFull).store "Chrono Trigger" =
        some ⟨"Chrono Trigger", bFull.release_date.join, bFull.studio.join,
          bFull.ratings.join, bFull.platforms.join⟩)) :=
  ⟨by decide, by decide,
    update_requires_all_fields [row0] "Chrono Trigger" row0 bFull (by decide)
      (by decide)⟩

-- Claim C5

/-- Claim C5: deleting a stored game returns it with a 200, and a following
get on the same name answers 404 with the message of the handler: the row
keyed by that name is gone from the store.  The hypothesis that the name
column has no duplicates is the primary key constraint of the table. -/
theorem delete_then_get_not_found (s : Store) (n : String) (r : GameRow)
    (hrow : lookup s n = some r) (hnodup : (s.map GameRow.name).Nodup) :
    (delete_game s n).response = Response.okDeleted r ∧
    read_game (delete_game s n).store n = Response.notFound "Game not found" := by
  unfold delete_game
  simp only [hrow]
  simp [read_game, lookup_eraseRow hnodup]

/-- Witness for C5 at the sample store. -/
theorem delete_then_get_not_found_witness :
    lookup [row0] "Chrono Trigger" = some row0 ∧
    (([row0] : Store).map GameRow.name).Nodup ∧
    ((delete_game [row0] "Chrono Trigger").response = Response.okDeleted row0 ∧
      read_game (delete_game [row0] "Chrono Trigger").store "Chrono Trigger" =
        Response.notFound "Game not found") :=
  ⟨by decide, by decide,
    delete_then_get_not_found [row0] "Chrono Trigger" row0 (by decide) (by decide)⟩

-- Claim C6

/-- Claim C6: a get, full update, partial update or delete on a name absent
from the store answers 404 with the descriptive detail of the handler, and
the store is left unchanged (the get and the three mutators all test the
lookup before writing anything). -/
theorem absent_name_not_found (s : Store) (n : String) (b : GameUpdate)
    (habsent : lookup s n = none) :
    read_game s n = Response.notFound "Game not found" ∧
    update_game s n b = ⟨Response.notFound "Game not found", s⟩ ∧
    patch_game s n b = ⟨Response.notFound "Game not found", s⟩ ∧
    delete_game s n = ⟨Response.notFound "Game not found", s⟩ := by
  unfold read_game update_game patch_game delete_game
  simp [habsent]

/-- Witness for C6 at the empty store. -/
theorem absent_name_not_found_witness :
    lookup [] "Halo" = none ∧
    (read_game [] "Halo" = Response.notFound "Game not found" ∧
      update_game [] "Halo" ⟨none, none, none, none⟩ =
        ⟨Response.notFound "Game not found", []⟩ ∧
      patch_game [] "Halo" ⟨none, none, none, none⟩ =
        ⟨Response.notFound "Game not found", []⟩ ∧
      delete_game [] "Halo" = ⟨Response.notFound "Game not found", []⟩) :=
  ⟨rfl, absent_name_not_found [] "Halo" ⟨none, none, none, none⟩ rfl⟩

-- Claim C7

/-- Claim C7 counterexample: validation only bounds limit from above, so
the request offset 0, limit -1 passes validation, yet SQLite treats the
negative LIMIT as unbounded: on a one-row store it returns one game, which
is more than the limit, refuting the claim that every validated list
request returns at most limit games. -/
theorem read_games_negative_limit_counterexample :
    read_games [row0] 0 (-1) = Response.okList [pub0] ∧ ¬((1 : Int) ≤ -1) := by
  decide

/-- Claim C7 (amended): for every list request that passes input validation
and whose limit is non-negative, a returned sequence holds at most limit
games, and such a request indeed has limit at most 100; a negative limit
also passes validation and disables the bound (see the counterexample). -/
theorem read_games_bounded (s : Store) (off limit : Int) (l : List GamePublic)
    (h0 : 0 ≤ limit) (h : read_games s off limit = Response.okList l) :
    (l.length : Int) ≤ limit ∧ limit ≤ 100 := by
  unfold read_games at h
  by_cases h100 : 100 < limit
  · rw [if_pos h100] at h
    exact absurd h (by simp)
  · have hneg : ¬limit < 0 := not_lt.mpr h0
    rw [if_neg h100, if_neg hneg] at h
    cases hser : serializeAll ((s.drop off.toNat).take limit.toNat) with
    | none => rw [hser] at h; exact absurd h (by simp)
    | some ps =>
      rw [hser] at h
      have hl : ps = l := by simpa using h
      have hlen : l.length ≤ limit.toNat := by
        rw [← hl, serializeAll_length hser, List.length_take]
        exact Nat.min_le_left _ _
      refine ⟨?_, not_lt.mp h100⟩
      calc (l.length : Int) ≤ (limit.toNat : Int) := by exact_mod_cast hlen
        _ = limit := Int.toNat_of_nonneg h0

/-- Witness for the amended C7 at the sample store, offset 0 and
limit 100. -/
theorem read_games_bounded_witness :
    (0 : Int) ≤ 100 ∧ read_games [row0] 0 100 = Response.okList [pub0] ∧
    ((([pub0] : List GamePublic).length : Int) ≤ 100 ∧ (100 : Int) ≤ 100) :=
  ⟨by decide, by decide, read_games_bounded [row0] 0 100 [pub0] (by decide) (by decide)⟩

-- Claim C8

/-- Claim C8: the stored names are immutable under both update endpoints:
whatever the request body, the name column of the store after a full or a
partial update is exactly the name column before it, so no update renames a
row (the full update handler rewrites name with the path name it just
looked the row up by, and the partial update body has no name field). -/
theorem update_preserves_names (s : Store) (n : String) (b : GameUpdate) :
    (update_game s n b).store.map GameRow.name = s.map GameRow.name ∧
    (patch_game s n b).store.map GameRow.name = s.map GameRow.name := by
  constructor
  · unfold update_game
    cases hl : lookup s n with
    | none => rfl
    | some r =>
      cases b.release_date.join with
      | none =>
        cases b.studio.join <;> cases b.ratings.join <;> cases b.platforms.join <;> rfl
      | some d =>
        cases b.studio.join with
        | none => cases b.ratings.join <;> cases b.platforms.join <;> rfl
        | some st =>
          cases b.ratings.join with
          | none => cases b.platforms.join <;> rfl
          | some rt =>
            cases b.platforms.join with
            | none => rfl
            | some pl =>
              by_cases hst : st = ""
              · simp [hst]
              · by_cases hn : n = ""
                · simp [hst, hn]
                · simp [hst, hn]
                  exact setRow_map_name rfl
  · unfold patch_game
    cases hl : lookup s n with
    | none => rfl
    | some r =>
      by_cases hc : commitOk r (applyPatch r b)
      · simp only [hc, if_true]
        have hname : r.name = n := lookup_name hl
        exact setRow_map_name (show (applyPatch r b).name = n from hname)
      · simp [hc]

-- Claim C9

/-- Claim C9 counterexample: from the empty store, creating the sample game
and then issuing a partial update whose body supplies the empty string for
studio and an explicit null for platforms commits both values (GameUpdate
carries no length bound on studio, and the platforms JSON column is
nullable): the stored entity then has an empty studio and a null platforms
field, refuting the claim that every stored entity has all fields non-null
with a non-empty studio. -/
theorem stored_entity_counterexample :
    (patch_game (create_game [] g0).store "Chrono Trigger"
        ⟨none, some (some ""), none, some none⟩).store = [row2] ∧
    row2.studio = some "" ∧ row2.platforms = none := by
  decide

/-- Claim C9 (amended): after any sequence of create, full update, partial
update and delete requests starting from the empty store, every stored row
has a non-empty name and non-null release_date, studio and ratings (the
NOT NULL columns); the stored studio can however be the empty string and
the stored platforms can be null, both reachable only through a partial
update that explicitly supplies such a value (see the counterexample). -/
theorem stored_rows_wellformed (ops : List Op) (r : GameRow)
    (h : r ∈ runOps ops) : rowWF r :=
  storeWF_foldl ops [] (fun r' hr' => absurd hr' (List.not_mem_nil r')) r h

/-- Witness for the amended C9: one create from the empty store. -/
theorem stored_rows_wellformed_witness :
    row0 ∈ runOps [Op.create g0] ∧ rowWF row0 :=
  ⟨by decide, stored_rows_wellformed [Op.create g0] row0 (by decide)⟩

-- Claim C10

/-- Claim C10 counterexample: the store holding the sample game with a null
platforms field is reachable (create it, then patch platforms to null); on
it, the empty-body partial update leaves the store unchanged but answers
with the 500 serialization failure of the response model, not with a 200,
refuting the claim that the empty merge always succeeds with 200. -/
theorem patch_empty_counterexample :
    (patch_game (create_game [] g0).store "Chrono Trigger"
        ⟨none, none, none, some none⟩).store = [row1] ∧
    lookup [row1] "Chrono Trigger" = some row1 ∧
    patch_game [row1] "Chrono Trigger" ⟨none, none, none, none⟩ =
      ⟨Response.serverError, [row1]⟩ := by
  decide

/-- Claim C10 (amended): a partial update with the empty body on a stored
game whose row serializes through the public response model (no null field
and a non-empty studio, the constraints GamePublic inherits) answers 200
with the stored game and leaves the store, hence every field of the stored
game, unchanged; without that proviso the store is still unchanged but the
response is a 500 (see the counterexample). -/
theorem patch_empty_identity (s : Store) (n : String) (r : GameRow)
    (p : GamePublic) (hrow : lookup s n = some r) (hser : r.toPublic = some p) :
    patch_game s n ⟨none, none, none, none⟩ = ⟨Response.ok p, s⟩ := by
  have happ : applyPatch r ⟨none, none, none, none⟩ = r := rfl
  have hc : commitOk r (applyPatch r ⟨none, none, none, none⟩) :=
    ⟨Or.inl rfl, Or.inl rfl, Or.inl rfl⟩
  unfold patch_game
  simp only [hrow]
  rw [if_pos hc, happ, setRow_self hrow]
  simp [respOf, hser]

/-- Witness for the amended C10 at the sample store. -/
theorem patch_empty_identity_witness :
    lookup [row0] "Chrono Trigger" = some row0 ∧ row0.toPublic = some pub0 ∧
    patch_game [row0] "Chrono Trigger" ⟨none, none, none, none⟩ =
      ⟨Response.ok pub0, [row0]⟩ :=
  ⟨by decide, by decide,
    patch_empty_identity [row0] "Chrono Trigger" row0 pub0 (by decide) (by decide)⟩
